import Mathlib

/-!
Shallow embedding of `src/moneypuck/moneypuck.py` (class `MoneyPuck`), a
Selenium-Wire scraper for moneypuck.com.

Modelling conventions:
* The browser (`Driver`) is explicit state: a capture buffer of intercepted
  requests, the current URL, and the current page's DOM.
* The external web is a `Site` parameter: which page a URL renders to and which
  CSV requests the browser captures as a side effect of rendering it.
* The date page's DOM is modelled at the granularity the code inspects: a list
  of table rows (`tr`), each a list of cells (`td`) exposing the text of its
  `h2` child and the `alt` attribute of its `img` child; every logo image sits
  inside an anchor whose target is the row's game link, and clickability is a
  per-row flag (a game's logos become clickable together).
* Python floats are modelled as exact rationals `ℚ`.
* Python exceptions are modelled by `PyResult`: a normal value or an exception,
  either way together with the mutated object state, since Python exceptions
  leave `self.driver` observable by the caller.
* Machine-specific collaborators are modelled by their documented behaviour:
  Selenium-Wire's `wait_for_request(pat)` scans the capture buffer for the
  first request whose URL the regex `pat` matches (`re.search`); the regexes
  this program builds are literals joined by `.*` wildcards, so matching is
  "the literal segments occur in order as substrings".  `WebDriverWait(..., t)`
  bounds real time, which the model elides: an element that never becomes
  clickable (or a row set that is never present) times out.
-/

/-- Python `str.split(sep)` for a one-character separator, on `List Char`. -/
def splitChars (sep : Char) : List Char → List (List Char)
  | [] => [[]]
  | c :: t =>
    if c = sep then [] :: splitChars sep t
    else
      match splitChars sep t with
      | [] => [[c]]
      | h :: r => (c :: h) :: r

/-- Python `str.split(sep)` for a one-character separator. -/
def pySplitChar (sep : Char) (s : String) : List String :=
  (splitChars sep s.toList).map (fun l => (⟨l⟩ : String))

/-- Python `str.strip(ch)`: remove the character from both ends. -/
def pyStrip (ch : Char) (s : String) : String :=
  ⟨((s.toList.dropWhile (· = ch)).reverse.dropWhile (· = ch)).reverse⟩

/-- Python `str.upper()` (ASCII, which covers every string this program builds). -/
def pyUpper (s : String) : String := ⟨s.toList.map Char.toUpper⟩

/-- Python `str.lower()` (ASCII, which covers every string this program builds). -/
def pyLower (s : String) : String := ⟨s.toList.map Char.toLower⟩

/-- Value of a single decimal digit, `none` for a non-digit. -/
def digitVal (c : Char) : Option Nat :=
  if c.isDigit then some (c.toNat - '0'.toNat) else none

/-- Value of a digit string, `none` if empty or not all digits. -/
def digitsVal : List Char → Option Nat
  | [] => none
  | [c] => digitVal c
  | c :: t =>
    match digitVal c, digitsVal t with
    | some d, some v => some (d * 10 ^ t.length + v)
    | _, _ => none

/-- Python `float(s)` restricted to the plain decimal forms `DDD`, `DDD.DDD`,
`.DDD`, `DDD.` that this program's inputs take; `none` where `float` raises
`ValueError`.  (Exotic `float` spellings — exponents, infinities, whitespace —
never occur in the scraped texts and are mapped to `none` as well.) -/
def parseDecimal (s : String) : Option ℚ :=
  match splitChars '.' s.toList with
  | [ip] => (digitsVal ip).map (fun n => (n : ℚ))
  | [ip, fp] =>
    if ip = [] ∧ fp = [] then none
    else
      match (if ip = [] then some 0 else digitsVal ip),
            (if fp = [] then some 0 else digitsVal fp) with
      | some n, some f => some ((n : ℚ) + (f : ℚ) / 10 ^ fp.length)
      | _, _ => none
  | _ => none

/-- Python `dict` lookup on an association list without duplicate keys. -/
def pyLookup {α : Type} (d : List (String × α)) (k : String) : Option α :=
  (d.find? (fun p => p.1 = k)).map Prod.snd

/-- Python `dict` insertion: update the value in place if the key is present,
append otherwise. -/
def dictInsert {α : Type} (d : List (String × α)) (k : String) (v : α) :
    List (String × α) :=
  match d with
  | [] => [(k, v)]
  | (k', v') :: t => if k' = k then (k', v) :: t else (k', v') :: dictInsert t k v

/-- A Python `dict` built from a list of key/value pairs, later pairs
overwriting earlier ones. -/
def mkDict {α : Type} (l : List (String × α)) : List (String × α) :=
  l.foldl (fun d p => dictInsert d p.1 p.2) []

/-- The dict comprehension `{v : k for k, v in d.items()}`. -/
def pyDictInv (d : List (String × String)) : List (String × String) :=
  mkDict (d.map (fun p => (p.2, p.1)))

/-- Literal segments of a regex of the shape this program builds: literals
joined by `.*` wildcards. -/
def patternSegments : List Char → List (List Char)
  | [] => [[]]
  | '.' :: '*' :: t => [] :: patternSegments t
  | c :: t =>
    match patternSegments t with
    | [] => [[c]]
    | h :: r => (c :: h) :: r

/-- Find the first occurrence of `needle` in `hay` and return the remainder
after it, `none` if absent. -/
def searchDrop (needle : List Char) : List Char → Option (List Char)
  | [] => if needle.isPrefixOf ([] : List Char) then some [] else none
  | c :: t =>
    if needle.isPrefixOf (c :: t) then some ((c :: t).drop needle.length)
    else searchDrop needle t

/-- Segments occur in order as substrings. -/
def matchSegs : List (List Char) → List Char → Bool
  | [], _ => true
  | seg :: rest, h =>
    match searchDrop seg h with
    | none => false
    | some h' => matchSegs rest h'

/-- Behaviour of `re.search(pat, url)` for the `.*`-joined literal patterns this
program builds: the literal segments occur in order as substrings of the URL. -/
def reSearch (pat url : String) : Bool :=
  matchSegs (patternSegments pat.toList) url.toList

/-- One network exchange captured by Selenium-Wire: the request URL and the
response body (`disable_encoding` is set, so the body is plain text bytes,
modelled as the decoded string). -/
structure Request where
  url : String
  body : String
deriving DecidableEq, Repr

/-- A `td` table cell, at the granularity the code inspects: the text of its
`h2` child and the `alt` attribute of its `img` child (empty string when the
child is absent — an empty text fails `float` and an empty alt fails the team
lookup, matching the failure the real DOM produces). -/
structure Cell where
  h2Text : String
  imgAlt : String
deriving DecidableEq, Repr

instance : Inhabited Cell := ⟨⟨"", ""⟩⟩

/-- A `tr` table row of the date page.  Each logo image in the row sits inside
an anchor targeting `href`, and the row's elements are clickable iff
`clickable` (a game not yet started is not clickable). -/
structure Row where
  cells : List Cell
  href : String
  clickable : Bool
deriving DecidableEq, Repr

/-- A rendered page: the rows matched by the selector
`div#includedContent tbody > tr` (empty for non-date pages). -/
structure Page where
  rows : List Row
deriving DecidableEq, Repr

/-- The external web: which page a URL renders to, and which requests the
browser captures as a side effect of rendering it. -/
structure Site where
  pageOf : String → Page
  requestsOf : String → List Request

/-- The Selenium-Wire driver: capture buffer, current URL, current page. -/
structure Driver where
  requests : List Request
  currentUrl : String
  page : Page
deriving DecidableEq, Repr

/-- The `MoneyPuck` object's state: driver plus the team directory and its
inverse, and whether `driver.quit()` has been called. -/
structure MoneyPuck where
  driver : Driver
  teams : List (String × String)
  teamsInv : List (String × String)
  quitCalled : Bool
deriving DecidableEq, Repr

/-- The Python exceptions the embedded code can raise. -/
inductive PyErr where
  | timeoutException
  | noSuchElement (msg : String)
  | keyError (key : String)
  | indexError
  | valueError
deriving DecidableEq, Repr

/-- Outcome of running a method: a value or an exception, either way with the
object state, which Python leaves observable after an exception. -/
inductive PyResult (α : Type) where
  | ok : α → MoneyPuck → PyResult α
  | exn : PyErr → MoneyPuck → PyResult α

/-- The object state after a method, whether it returned or raised. -/
def stateOf {α : Type} : PyResult α → MoneyPuck
  | .ok _ mp => mp
  | .exn _ mp => mp

/-- The returned value, `none` if the method raised. -/
def resultValue {α : Type} : PyResult α → Option α
  | .ok a _ => some a
  | .exn _ _ => none

/-- The raised exception, `none` if the method returned. -/
def resultErr {α : Type} : PyResult α → Option PyErr
  | .ok _ _ => none
  | .exn e _ => some e

/-- `driver.get(url)`: navigate.  Selenium-Wire's capture buffer persists
across navigations, so the requests triggered by rendering the new page are
appended to it. -/
def driverGet (site : Site) (d : Driver) (url : String) : Driver :=
  { requests := d.requests ++ site.requestsOf url
    currentUrl := url
    page := site.pageOf url }

/-- `del driver.requests`: clear the capture buffer. -/
def delRequests (d : Driver) : Driver := { d with requests := [] }

/-- `driver.wait_for_request(pat)`: first captured request whose URL matches
`pat`; `none` models the `TimeoutException` raised when no match ever appears
(the model elides real time: no match now means no match within the timeout). -/
def waitForRequest (d : Driver) (pat : String) : Option Request :=
  d.requests.find? (fun r => reSearch pat r.url)

/-- XPath search `//img[@alt=alt]` (and `//a/img[@alt=alt]`: every modelled
row image sits inside an anchor): the slash-slash axis searches the whole
document even when invoked on an element, so this returns the first row, in
page order, containing an image with the given alt text. -/
def findImgGlobal (rows : List Row) (alt : String) : Option Row :=
  rows.find? (fun r => r.cells.any (fun c => c.imgAlt = alt))

/-- `MoneyPuck.__exit__`: `self.driver.quit()`. -/
def pyExit (mp : MoneyPuck) : MoneyPuck := { mp with quitCalled := true }

/-- A `with MoneyPuck() as mp:` block: run the body, then `__exit__` runs on
both the normal and the exceptional path, and (returning `None`) re-raises any
exception. -/
def withStmt {α : Type} (body : MoneyPuck → PyResult α) (mp : MoneyPuck) :
    PyResult α :=
  match body mp with
  | .ok a mp' => .ok a (pyExit mp')
  | .exn e mp' => .exn e (pyExit mp')

/-- `self.base_url`. -/
def base_url : String := "http://moneypuck.com"

/-- `MoneyPuck._gen_iso`: today's ISO date when the argument is `None`,
otherwise the argument.  `today` stands for `date.today().isoformat()`. -/
def _gen_iso (today : String) : Option String → String
  | none => today
  | some d => d

/-- The final `self.driver.wait_for_request(regex)` call of `_find_request`:
the first matching captured request, or the `TimeoutException` the wait raises
when none appears. -/
def _wait_for_request (mp : MoneyPuck) (regex : String) : PyResult Request :=
  match waitForRequest mp.driver regex with
  | some r => .ok r mp
  | none => .exn .timeoutException mp

/-- `MoneyPuck._find_request`: when a URL is given, first `del
self.driver.requests`, then `driver.get(url)`; then `wait_for_request(regex)`. -/
def _find_request (site : Site) (mp : MoneyPuck) (regex : String)
    (url : Option String) : PyResult Request :=
  match url with
  | some u =>
    _wait_for_request { mp with driver := driverGet site (delRequests mp.driver) u } regex
  | none => _wait_for_request mp regex

/-- A parsed CSV: one association list per data row, pairing each header field
with the cell parsed as a number (`none` for a non-numeric cell). -/
abbrev Df : Type := List (List (String × Option ℚ))

/-- `MoneyPuck._gen_dataframe`, as `pandas.read_csv` behaves on the program's
comma-separated payloads: first line is the header, every later non-empty line
is a data row, numeric cells become numbers. -/
def _gen_dataframe (body : String) : Df :=
  match pySplitChar '\n' body with
  | [] => []
  | header :: rest =>
    (rest.filter (fun l => l ≠ "")).map
      (fun line =>
        (pySplitChar ',' header).zip ((pySplitChar ',' line).map parseDecimal))

/-- `MoneyPuck._go_to_date`: `driver.get` on the date-indexed URL.  The capture
buffer is NOT touched here. -/
def _go_to_date (site : Site) (today : String) (mp : MoneyPuck)
    (iso_date : Option String) : MoneyPuck :=
  { mp with
    driver :=
      driverGet site mp.driver
        (base_url ++ "/index.html?date=" ++ _gen_iso today iso_date) }

/-- The fixed `WebDriverWait` timeout of `_go_to_game` and `win_probs`. -/
def waitTimeout : Nat := 10

/-- `WebDriverWait(driver, timeout).until(element_to_be_clickable(xpath))` for
`//a/img[@alt=alt]`: the wait polls the first matching element until it is
clickable; `none` models the `TimeoutException` (the model elides real time:
an element that never becomes clickable, or that is absent, times out).  The
`timeout` argument bounds the elided real time. -/
def waitUntilClickable (timeout : Nat) (rows : List Row) (alt : String) :
    Option Row :=
  match timeout, findImgGlobal rows alt with
  | _, some r => if r.clickable then some r else none
  | _, none => none

/-- Body of `MoneyPuck._go_to_game` after the date navigation: wait (timeout 10) for
the home team's logo (alt = uppercased display name) to be clickable, take its
`./../../..` ancestor row as container, search `//img[@alt=...]` for the away
team's logo — a document-global search despite being invoked on the container —
raising `NoSuchElementException("Requested game does not exist.")` when it is
absent; then `del self.driver.requests` and click the home logo.  An unknown
short code raises `KeyError` at the `self.teams[...]` lookup. -/
def _go_to_game_on_page (site : Site) (mp1 : MoneyPuck) (home away : String) :
    PyResult Unit :=
  match pyLookup mp1.teams home with
  | none => .exn (.keyError home) mp1
  | some homeName =>
    match waitUntilClickable waitTimeout mp1.driver.page.rows (pyUpper homeName) with
    | none => .exn .timeoutException mp1
    | some homeRow =>
      match pyLookup mp1.teams away with
      | none => .exn (.keyError away) mp1
      | some awayName =>
        match findImgGlobal mp1.driver.page.rows (pyUpper awayName) with
        | none => .exn (.noSuchElement "Requested game does not exist.") mp1
        | some _ =>
          .ok () { mp1 with
                   driver := driverGet site (delRequests mp1.driver) homeRow.href }

/-- `MoneyPuck._go_to_game` is `_go_to_date` followed by the element dance of
`_go_to_game_on_page` on the resulting state. -/
def _go_to_game (site : Site) (today : String) (mp : MoneyPuck)
    (home away : String) (iso_date : Option String) : PyResult Unit :=
  _go_to_game_on_page site (_go_to_date site today mp iso_date) home away

/-- `self.driver.current_url.split("=").pop()`: the last `=`-delimited token of
the URL (`split` never returns an empty list, so `pop` never fails). -/
def gameIdOf (url : String) : String :=
  ((pySplitChar '=' url).getLast?).getD ""

/-- `MoneyPuck._game_data`: go to the game, read the game id off the current
URL, build the filename regex, wait for the matching request, parse its body. -/
def _game_data (site : Site) (today : String) (mp : MoneyPuck)
    (home away : String) (iso_date : Option String) (csv_fn : String → String) :
    PyResult Df :=
  match _go_to_game site today mp home away iso_date with
  | .exn e mp => .exn e mp
  | .ok _ mp =>
    let game_id := gameIdOf mp.driver.currentUrl
    let f_name := csv_fn game_id
    match _find_request site mp f_name none with
    | .exn e mp => .exn e mp
    | .ok r mp => .ok (_gen_dataframe r.body) mp

/-- `MoneyPuck._gen_stats_regex`. -/
def _gen_stats_regex (game_id : String) : String :=
  s!"moneypuck.com/moneypuck/playerData/games/.*/{game_id}.csv"

/-- `MoneyPuck._gen_events_regex`. -/
def _gen_events_regex (game_id : String) : String :=
  s!"moneypuck.com/moneypuck/gameData/.*/{game_id}.csv"

/-- Inner `_process_percent` of `win_probs`: the `h2` text of the cell,
stripped of `%` and parsed by `float`, divided by 100.  An unparseable text
models the `ValueError` that `float` raises. -/
def _process_percent (c : Cell) : Option ℚ :=
  (parseDecimal (pyStrip '%' c.h2Text)).map (fun v => v / 100)

/-- Inner `_process_logo` of `win_probs`: the lowercased `alt` of the cell's
image, looked up in the inverse team directory, uppercased.  `none` models the
`KeyError` on an unknown alt text. -/
def _process_logo (teamsInv : List (String × String)) (c : Cell) :
    Option String :=
  (pyLookup teamsInv (pyLower c.imgAlt)).map pyUpper

/-- One iteration of the `win_probs` row loop, in the source's evaluation
order: `els[0]` percent, `els[1]` logo, `els[4]` percent, `els[3]` logo, then
the two-entry dict `{away_name: away_prob, home_name: home_prob}`.  A missing
index models `IndexError`. -/
def processRow (teamsInv : List (String × String)) (row : Row) :
    Except PyErr (List (String × ℚ)) :=
  match row.cells.get? 0 with
  | none => .error .indexError
  | some c0 =>
    match _process_percent c0 with
    | none => .error .valueError
    | some away_prob =>
      match row.cells.get? 1 with
      | none => .error .indexError
      | some c1 =>
        match _process_logo teamsInv c1 with
        | none => .error (.keyError (pyLower c1.imgAlt))
        | some away_name =>
          match row.cells.get? 4 with
          | none => .error .indexError
          | some c4 =>
            match _process_percent c4 with
            | none => .error .valueError
            | some home_prob =>
              match row.cells.get? 3 with
              | none => .error .indexError
              | some c3 =>
                match _process_logo teamsInv c3 with
                | none => .error (.keyError (pyLower c3.imgAlt))
                | some home_name =>
                  .ok (mkDict [(away_name, away_prob), (home_name, home_prob)])

/-- The `win_probs` row loop over all rows, stopping at the first exception. -/
def processRows (teamsInv : List (String × String)) :
    List Row → Except PyErr (List (List (String × ℚ)))
  | [] => .ok []
  | r :: t =>
    match processRow teamsInv r with
    | .error e => .error e
    | .ok entry =>
      match processRows teamsInv t with
      | .error e => .error e
      | .ok rest => .ok (entry :: rest)

/-- `MoneyPuck.win_probs`: navigate to the date page, wait (timeout 10) for the
presence of all rows of `div#includedContent tbody > tr` (no rows ever present
models the `TimeoutException`), and run the row loop. -/
def win_probs (site : Site) (today : String) (mp : MoneyPuck)
    (iso_date : Option String) : PyResult (List (List (String × ℚ))) :=
  let mp1 := _go_to_date site today mp iso_date
  match mp1.driver.page.rows with
  | [] => .exn .timeoutException mp1
  | rows =>
    match processRows mp1.teamsInv rows with
    | .error e => .exn e mp1
    | .ok l => .ok l mp1

/-- `MoneyPuck.game_stats`. -/
def game_stats (site : Site) (today : String) (mp : MoneyPuck)
    (home away : String) (iso_date : Option String) : PyResult Df :=
  _game_data site today mp home away iso_date _gen_stats_regex

/-- `MoneyPuck.game_events`. -/
def game_events (site : Site) (today : String) (mp : MoneyPuck)
    (home away : String) (iso_date : Option String) : PyResult Df :=
  _game_data site today mp home away iso_date _gen_events_regex

/-- `MoneyPuck.game_current_win_prob`: the events table's last row's
`homeWinProbability` as the home value, one minus it as the away value.
`iloc[-1]` on an empty frame models `IndexError`; a missing column models the
pandas `KeyError`; a non-numeric cell models the failure of the arithmetic. -/
def game_current_win_prob (site : Site) (today : String) (mp : MoneyPuck)
    (home away : String) (iso_date : Option String) :
    PyResult (List (String × ℚ)) :=
  match game_events site today mp home away iso_date with
  | .exn e mp => .exn e mp
  | .ok game_df mp =>
    match game_df.getLast? with
    | none => .exn .indexError mp
    | some curr =>
      match pyLookup curr "homeWinProbability" with
      | none => .exn (.keyError "homeWinProbability") mp
      | some none => .exn .valueError mp
      | some (some p) => .ok (mkDict [(home, p), (away, 1 - p)]) mp

/-- Modelled from the spec: `nhl_teams.yaml` is not under `src/`.  The spec's
TeamDirectory maps 3-character short codes to canonical display names,
bijectively; the repository's tests pass lowercase short codes, and
`_process_logo` lowercases alt text before the inverse lookup while `.upper()`
is applied to both directions' outputs, so codes and display names are stored
lowercase.  The teams named in the tests suffice as the concrete directory. -/
def nhlTeams : List (String × String) :=
  [("cbj", "columbus blue jackets"), ("tbl", "tampa bay lightning"),
   ("det", "detroit red wings"), ("chi", "chicago blackhawks"),
   ("nyi", "new york islanders"), ("njd", "new jersey devils"),
   ("mtl", "montreal canadiens"), ("van", "vancouver canucks"),
   ("tor", "toronto maple leafs")]

/-- `MoneyPuck.__init__` (given a loaded team directory): fresh driver, the
directory and its inverse `{v: k for k, v in teams.items()}`. -/
def mkMoneyPuck (teams : List (String × String)) : MoneyPuck :=
  { driver := { requests := [], currentUrl := "", page := ⟨[]⟩ }
    teams := mkDict teams
    teamsInv := pyDictInv teams
    quitCalled := false }

/-! ## Concrete scenario: the MTL/VAN game of 2021-01-23, as the tests drive it -/

/-- The date-indexed URL the program builds for 2021-01-23. -/
def dateUrlA : String := "http://moneypuck.com/index.html?date=2021-01-23"

/-- The game page URL reached by clicking the row's logo. -/
def gameUrlA : String := "http://moneypuck.com/g.htm?id=123"

/-- The date-page row of the MTL (away, 45.7%) at VAN (home, 54.3%) game. -/
def mtlVanRow : Row :=
  { cells := [⟨"45.7%", ""⟩, ⟨"", "MONTREAL CANADIENS"⟩, ⟨"", ""⟩,
              ⟨"", "VANCOUVER CANUCKS"⟩, ⟨"54.3%", ""⟩]
    href := gameUrlA
    clickable := true }

/-- The per-player stats CSV captured while the game page renders. -/
def statsReqA : Request :=
  { url := "https://moneypuck.com/moneypuck/playerData/games/20202021/123.csv"
    body := "playerId,goals\n8480018,1\n8471679,2" }

/-- The events / win-probabilities CSV captured while the game page renders. -/
def eventsReqA : Request :=
  { url := "https://moneypuck.com/moneypuck/gameData/20202021/123.csv"
    body := "event,homeWinProbability\nstart,0.5\ngoal,0.75" }

/-- The site: the date page lists the one game; rendering the game page
captures the two CSVs. -/
def siteA : Site :=
  { pageOf := fun u => if u = dateUrlA then ⟨[mtlVanRow]⟩ else ⟨[]⟩
    requestsOf := fun u => if u = gameUrlA then [statsReqA, eventsReqA] else [] }

/-- A freshly constructed `MoneyPuck` over the team directory. -/
def mpA : MoneyPuck := mkMoneyPuck nhlTeams

/-- The object state after a successful `_go_to_game` on `siteA`: the click
navigated to the game page and the buffer holds exactly its two CSV captures. -/
def mpAfterGameA : MoneyPuck :=
  { mpA with
    driver := { requests := [statsReqA, eventsReqA]
                currentUrl := gameUrlA
                page := ⟨[]⟩ } }

/-- The parsed `homeWinProbability` of the last events row, `0.75`. -/
def pEvA : ℚ := ((0 : ℕ) : ℚ) + ((75 : ℕ) : ℚ) / 10 ^ 2

/-- The last row of the parsed events CSV. -/
def currRowA : List (String × Option ℚ) :=
  [("event", none), ("homeWinProbability", some pEvA)]

/-! ## General lemmas about the embedded primitives -/

/-- Python `split` never returns an empty list. -/
theorem splitChars_ne_nil (sep : Char) (l : List Char) : splitChars sep l ≠ [] := by
  induction l with
  | nil => simp [splitChars]
  | cons c t ih =>
    simp only [splitChars]
    split
    · simp
    · cases h : splitChars sep t with
      | nil => exact absurd h ih
      | cons a r => simp [h]

/-- When the separator does not occur, `split` returns the whole string. -/
theorem splitChars_of_not_mem (sep : Char) (l : List Char) (h : sep ∉ l) :
    splitChars sep l = [l] := by
  induction l with
  | nil => rfl
  | cons c t ih =>
    simp only [List.mem_cons, not_or] at h
    simp only [splitChars]
    rw [if_neg (fun hc => h.1 hc.symm), ih h.2]

/-- Rebuilding a string from its characters is the identity. -/
theorem strMk_toList (s : String) : (⟨s.toList⟩ : String) = s := by
  cases s
  rfl


/-! ## C7: session release -/

/-- C7: for a `MoneyPuck` used as a context manager, `driver.quit` runs on
every exit path of the `with` block — after a normal return and after any
exception raised mid-operation alike, `__exit__` has been invoked on the final
state. -/
theorem c7_session_released {α : Type} (body : MoneyPuck → PyResult α)
    (mp : MoneyPuck) : (stateOf (withStmt body mp)).quitCalled = true := by
  unfold withStmt
  cases body mp <;> rfl

/-! ## C9: filename-pattern generators -/

/-- Pattern the spec states for the per-player stats CSV, transcribed from its
words: the fixed `playerData/games` prefix, a single `.*` wildcard for the
variable subdirectory segment, then the game id plus `.csv`. -/
def statsPatternSpec (g : String) : String :=
  "moneypuck.com/moneypuck/playerData/games/" ++ ".*" ++ "/" ++ (g ++ ".csv")

/-- Pattern the spec states for the per-game events CSV, transcribed from its
words: the fixed `gameData` prefix, a single `.*` wildcard for the variable
subdirectory segment, then the game id plus `.csv`. -/
def eventsPatternSpec (g : String) : String :=
  "moneypuck.com/moneypuck/gameData/" ++ ".*" ++ "/" ++ (g ++ ".csv")

/-- C9: for every game identifier, the stats generator returns exactly
`moneypuck.com/moneypuck/playerData/games/.*/<id>.csv` and the events
generator exactly `moneypuck.com/moneypuck/gameData/.*/<id>.csv` — the spec's
fixed prefixes, one wildcard subdirectory segment, the id plus `.csv`. -/
theorem c9_filename_patterns (g : String) :
    _gen_stats_regex g = statsPatternSpec g ∧
    _gen_events_regex g = eventsPatternSpec g := by
  constructor
  · show "moneypuck.com/moneypuck/playerData/games/.*/" ++ (g ++ ".csv") = _
    rw [statsPatternSpec,
      String.append_assoc ("moneypuck.com/moneypuck/playerData/games/" ++ ".*") "/"
        (g ++ ".csv")]
    rfl
  · show "moneypuck.com/moneypuck/gameData/.*/" ++ (g ++ ".csv") = _
    rw [eventsPatternSpec,
      String.append_assoc ("moneypuck.com/moneypuck/gameData/" ++ ".*") "/"
        (g ++ ".csv")]
    rfl

/-! ## C3: game id from the current URL -/

/-- C3 counterexample site: clicking the game row lands on a URL with no `=`
in it, and a CSV whose name embeds that whole URL is captured. -/
def site3 : Site :=
  { pageOf := fun u => if u = dateUrlA then ⟨[{ mtlVanRow with href := "http://moneypuck.com/gamepage" }]⟩ else ⟨[]⟩
    requestsOf := fun u =>
      if u = "http://moneypuck.com/gamepage" then
        [{ url := "https://moneypuck.com/moneypuck/playerData/games/2020/http://moneypuck.com/gamepage.csv"
           body := "playerId,goals\n8480018,1" }]
      else [] }

/-- C3 is wrong about the failure: when the URL reached after navigating
contains no `=` at all, `_game_data` does not fail — `split("=").pop()` simply
yields the entire URL as the game id, and here the run completes with no
error.  A `MalformedURL` failure does not exist in the code. -/
theorem c3_counterexample :
    ('=' ∉ "http://moneypuck.com/gamepage".toList) ∧
    (stateOf (game_stats site3 "2021-01-23" mpA "mtl" "van" (some "2021-01-23"))).driver.currentUrl
      = "http://moneypuck.com/gamepage" ∧
    resultErr (game_stats site3 "2021-01-23" mpA "mtl" "van" (some "2021-01-23")) = none := by
  refine ⟨by decide, by decide, by decide⟩

/-- C3 amended: `_game_data` never fails for lack of an `=`-delimited token —
`split("=")` always returns at least one token, the game id is the last one,
and for a URL with no `=` the game id is the whole URL. -/
theorem c3_amended (url : String) :
    (pySplitChar '=' url).getLast? = some (gameIdOf url) ∧
    ('=' ∉ url.toList → gameIdOf url = url) := by
  have hne : pySplitChar '=' url ≠ [] := by
    intro h
    exact splitChars_ne_nil '=' url.toList (by simpa [pySplitChar] using h)
  constructor
  · cases h : (pySplitChar '=' url).getLast? with
    | none => exact absurd (List.getLast?_eq_none_iff.mp h) hne
    | some x => simp [gameIdOf, h]
  · intro hmem
    have hs := splitChars_of_not_mem '=' url.toList hmem
    unfold gameIdOf pySplitChar
    rw [hs]
    exact strMk_toList url

/-- C3 amended, instantiated: a concrete URL with no `=` splits to itself. -/
theorem c3_amended_witness :
    (pySplitChar '=' "http://moneypuck.com/gamepage").getLast?
      = some (gameIdOf "http://moneypuck.com/gamepage") ∧
    gameIdOf "http://moneypuck.com/gamepage" = "http://moneypuck.com/gamepage" := by
  refine ⟨(c3_amended "http://moneypuck.com/gamepage").1,
    (c3_amended "http://moneypuck.com/gamepage").2 (by decide)⟩

/-! ## C1: which navigations clear the capture buffer -/

/-- A request captured on some earlier page, still sitting in the buffer. -/
def staleReq : Request :=
  { url := "https://moneypuck.com/moneypuck/gameData/2019/99.csv", body := "old" }

/-- A `MoneyPuck` whose buffer holds the stale capture. -/
def mpStale : MoneyPuck :=
  { mkMoneyPuck nhlTeams with
    driver := { requests := [staleReq], currentUrl := "http://other", page := ⟨[]⟩ } }

/-- A site on which every navigation renders an empty page and captures
nothing. -/
def siteEmpty : Site := { pageOf := fun _ => ⟨[]⟩, requestsOf := fun _ => [] }

/-- C1 is wrong for `_go_to_date`: it navigates without clearing the capture
buffer, so a request captured before that navigation IS returned as the match
of a subsequent `wait_for_request` call. -/
theorem c1_counterexample :
    staleReq ∈ mpStale.driver.requests ∧
    waitForRequest (_go_to_date siteEmpty "2021-01-23" mpStale none).driver
      (_gen_events_regex "99") = some staleReq := by
  refine ⟨by decide, by decide⟩

/-- C1 amended: the two navigations that DO clear the buffer first — the
fixed-URL fetch in `_find_request` and the click in `_go_to_game` — leave the
buffer holding exactly the new page's captures, so no request captured before
them can be the match of a subsequent `wait_for_request`; `_go_to_date` alone
navigates without clearing. -/
theorem c1_amended :
    (∀ (site : Site) (mp : MoneyPuck) (regex u : String),
      (stateOf (_find_request site mp regex (some u))).driver.requests =
        site.requestsOf u) ∧
    (∀ (site : Site) (today : String) (mp : MoneyPuck) (home away : String)
      (d : Option String) (mp' : MoneyPuck),
      _go_to_game site today mp home away d = .ok () mp' →
      mp'.driver.requests = site.requestsOf mp'.driver.currentUrl) ∧
    (∀ (site : Site) (mp : MoneyPuck) (regex u : String) (r : Request)
      (mp' : MoneyPuck),
      _find_request site mp regex (some u) = .ok r mp' →
      r ∈ site.requestsOf u) := by
  refine ⟨?_, ?_, ?_⟩
  · intro site mp regex u
    simp only [_find_request, _wait_for_request]
    split <;> simp_all [stateOf, driverGet, delRequests]
  · intro site today mp home away d mp' h
    unfold _go_to_game _go_to_game_on_page at h
    repeat' split at h
    any_goals exact PyResult.noConfusion h
    injection h with h1 h2
    subst h2
    simp [driverGet, delRequests]
  · intro site mp regex u r mp' h
    simp only [_find_request, _wait_for_request] at h
    split at h
    · rename_i r0 hw
      injection h with h1 h2
      subst h1
      have := List.mem_of_find?_eq_some hw
      simpa [driverGet, delRequests] using this
    · exact PyResult.noConfusion h

/-- C1 amended, instantiated: on the concrete site, after `_go_to_game`'s
click the buffer holds exactly the game page's captures, and the request
`_find_request` returns after a fixed-URL fetch was captured by that fetch. -/
theorem c1_amended_witness :
    mpAfterGameA.driver.requests = siteA.requestsOf mpAfterGameA.driver.currentUrl ∧
    statsReqA ∈ siteA.requestsOf gameUrlA := by
  constructor
  · exact c1_amended.2.1 siteA "2021-01-23" mpA "mtl" "van" (some "2021-01-23")
      mpAfterGameA (by rfl)
  · exact c1_amended.2.2 siteA mpA (_gen_stats_regex "123") gameUrlA statsReqA
      mpAfterGameA (by rfl)

/-! ## C2: short-code case sensitivity -/

/-- C2 is wrong about casing (and the code contradicts its own docstring,
which promises "home and away are case-insensitive"): `self.teams[home]` is an
exact dict lookup over lowercase keys, so the uppercase spelling of a code that
works in lowercase raises `KeyError` instead of reaching the same game.  Order
independence, by contrast, does hold on this page: swapping home and away
reaches the same game and returns the same result. -/
theorem c2_case_sensitivity_bug :
    resultErr (game_stats siteA "2021-01-23" mpA "MTL" "van" (some "2021-01-23"))
      = some (.keyError "MTL") ∧
    (resultValue (game_stats siteA "2021-01-23" mpA "mtl" "van" (some "2021-01-23"))).isSome
      = true ∧
    resultValue (game_stats siteA "2021-01-23" mpA "van" "mtl" (some "2021-01-23"))
      = resultValue (game_stats siteA "2021-01-23" mpA "mtl" "van" (some "2021-01-23")) := by
  refine ⟨by decide, by decide, rfl⟩

/-! ## C4: `_go_to_game` failure modes -/

/-- C4: with both short codes valid, `_go_to_game` fails with the wait's
`TimeoutException` when the home team's logo never becomes clickable within
the fixed timeout of 10, and fails with
`NoSuchElementException("Requested game does not exist.")` when the home logo
is found clickable but no element anywhere carries the away team's display
name; in both failure cases — in particular the `NotFound` one — the state is
exactly the post-`_go_to_date` state: the capture buffer still extends the
pre-call buffer (nothing was cleared) and the current URL is still the date
page (nothing was clicked). -/
theorem c4_go_to_game_errors (site : Site) (today : String) (mp : MoneyPuck)
    (home away : String) (d : Option String) (hn an : String)
    (hh : pyLookup (_go_to_date site today mp d).teams home = some hn)
    (ha : pyLookup (_go_to_date site today mp d).teams away = some an) :
    (waitUntilClickable waitTimeout (_go_to_date site today mp d).driver.page.rows
        (pyUpper hn) = none →
      _go_to_game site today mp home away d =
        .exn .timeoutException (_go_to_date site today mp d)) ∧
    (∀ rh : Row,
      waitUntilClickable waitTimeout (_go_to_date site today mp d).driver.page.rows
        (pyUpper hn) = some rh →
      findImgGlobal (_go_to_date site today mp d).driver.page.rows (pyUpper an) = none →
      _go_to_game site today mp home away d =
        .exn (.noSuchElement "Requested game does not exist.")
          (_go_to_date site today mp d)) ∧
    (_go_to_date site today mp d).driver.requests =
      mp.driver.requests ++
        site.requestsOf (base_url ++ "/index.html?date=" ++ _gen_iso today d) ∧
    (_go_to_date site today mp d).driver.currentUrl =
      base_url ++ "/index.html?date=" ++ _gen_iso today d := by
  refine ⟨?_, ?_, rfl, rfl⟩
  · intro hw
    simp only [_go_to_game, _go_to_game_on_page, hh, hw]
  · intro rh hw hg
    simp only [_go_to_game, _go_to_game_on_page, hh, hw, ha, hg]

/-- C4, instantiated: on the concrete date page, MTL/TOR (TOR nowhere on the
page) fails with the `NotFound` message in the un-clicked, un-cleared state,
and DET/CHI (DET not on the page) fails with the wait's timeout. -/
theorem c4_witness :
    _go_to_game siteA "2021-01-23" mpA "mtl" "tor" (some "2021-01-23") =
      .exn (.noSuchElement "Requested game does not exist.")
        (_go_to_date siteA "2021-01-23" mpA (some "2021-01-23")) ∧
    _go_to_game siteA "2021-01-23" mpA "det" "chi" (some "2021-01-23") =
      .exn .timeoutException (_go_to_date siteA "2021-01-23" mpA (some "2021-01-23")) := by
  constructor
  · exact (c4_go_to_game_errors siteA "2021-01-23" mpA "mtl" "tor"
      (some "2021-01-23") "montreal canadiens" "toronto maple leafs"
      (by decide) (by decide)).2.1 mtlVanRow (by decide) (by decide)
  · exact (c4_go_to_game_errors siteA "2021-01-23" mpA "det" "chi"
      (some "2021-01-23") "detroit red wings" "chicago blackhawks"
      (by decide) (by decide)).1 (by decide)

/-! ## C8: the away-team lookup is document-global -/

/-- C8: whenever some element anywhere on the date page carries the away
team's display name, the away lookup of `_go_to_game` succeeds and the click
proceeds — even under the explicit hypothesis that no cell of the located
container row carries that name, i.e. the matching element belongs to a
different game's row. -/
theorem c8_global_away_lookup (site : Site) (today : String) (mp : MoneyPuck)
    (home away : String) (d : Option String) (hn an : String) (rh : Row)
    (hh : pyLookup (_go_to_date site today mp d).teams home = some hn)
    (ha : pyLookup (_go_to_date site today mp d).teams away = some an)
    (hwait : waitUntilClickable waitTimeout (_go_to_date site today mp d).driver.page.rows
      (pyUpper hn) = some rh)
    (_hout : ∀ c ∈ rh.cells, c.imgAlt ≠ pyUpper an)
    (hglob : ∃ r ∈ (_go_to_date site today mp d).driver.page.rows,
      ∃ c ∈ r.cells, c.imgAlt = pyUpper an) :
    _go_to_game site today mp home away d =
      .ok () { _go_to_date site today mp d with
               driver := driverGet site
                 (delRequests (_go_to_date site today mp d).driver) rh.href } := by
  have hsome : (findImgGlobal (_go_to_date site today mp d).driver.page.rows
      (pyUpper an)).isSome := by
    rw [findImgGlobal, List.find?_isSome]
    obtain ⟨r, hr, c, hc, hcalt⟩ := hglob
    exact ⟨r, hr, by simp [List.any_eq_true]; exact ⟨c, hc, hcalt⟩⟩
  cases hfound : findImgGlobal (_go_to_date site today mp d).driver.page.rows
      (pyUpper an) with
  | none => rw [hfound] at hsome; cases hsome
  | some ra =>
    simp only [_go_to_game, _go_to_game_on_page, hh, hwait, ha, hfound]

/-- A second game row on the C8 date page, the only one carrying the
Vancouver logo. -/
def rowOther8 : Row :=
  { cells := [⟨"50.0%", ""⟩, ⟨"", "VANCOUVER CANUCKS"⟩, ⟨"", ""⟩,
              ⟨"", "DETROIT RED WINGS"⟩, ⟨"50.0%", ""⟩]
    href := "http://moneypuck.com/g.htm?id=556"
    clickable := true }

/-- The first game row on the C8 date page: Montreal's logo, no Vancouver. -/
def rowHomeOnly8 : Row :=
  { cells := [⟨"45.7%", ""⟩, ⟨"", "MONTREAL CANADIENS"⟩, ⟨"", ""⟩,
              ⟨"", "CHICAGO BLACKHAWKS"⟩, ⟨"54.3%", ""⟩]
    href := "http://moneypuck.com/g.htm?id=555"
    clickable := true }

/-- The C8 site: a date page with two game rows. -/
def site8 : Site :=
  { pageOf := fun u => if u = dateUrlA then ⟨[rowHomeOnly8, rowOther8]⟩ else ⟨[]⟩
    requestsOf := fun _ => [] }

/-- C8, instantiated: Montreal's container row holds no Vancouver logo, yet
`_go_to_game "mtl" "van"` succeeds because the Vancouver logo of the OTHER
game's row satisfies the document-global search. -/
theorem c8_witness :
    (∀ c ∈ rowHomeOnly8.cells, c.imgAlt ≠ pyUpper "vancouver canucks") ∧
    _go_to_game site8 "2021-01-23" mpA "mtl" "van" (some "2021-01-23") =
      .ok () { _go_to_date site8 "2021-01-23" mpA (some "2021-01-23") with
               driver := driverGet site8
                 (delRequests (_go_to_date site8 "2021-01-23" mpA
                   (some "2021-01-23")).driver) rowHomeOnly8.href } := by
  refine ⟨by decide, ?_⟩
  exact c8_global_away_lookup site8 "2021-01-23" mpA "mtl" "van" (some "2021-01-23")
    "montreal canadiens" "vancouver canucks" rowHomeOnly8
    (by decide) (by decide) (by decide) (by decide) (by decide)

/-! ## C5: current win probability -/

/-- Inserting two pairs into an empty dict keeps both exactly when the keys
differ; equal keys collapse to the later value. -/
theorem mkDict_pair {α : Type} (k1 k2 : String) (v1 v2 : α) :
    mkDict [(k1, v1), (k2, v2)] =
      if k1 = k2 then [(k1, v2)] else [(k1, v1), (k2, v2)] := by
  simp only [mkDict, List.foldl, dictInsert]

/-- C5: for distinct home/away codes and a run whose events table is non-empty
with a numeric `homeWinProbability` in its last row, `game_current_win_prob`
returns exactly the two-key mapping `{home: p, away: 1 - p}` — keys the
caller's strings verbatim, in that order — and the two values sum to 1. -/
theorem c5_current_win_prob (site : Site) (today : String) (mp : MoneyPuck)
    (home away : String) (d : Option String) (df : Df) (mp' : MoneyPuck)
    (curr : List (String × Option ℚ)) (p : ℚ)
    (hne : home ≠ away)
    (hev : game_events site today mp home away d = .ok df mp')
    (hlast : df.getLast? = some curr)
    (hp : pyLookup curr "homeWinProbability" = some (some p)) :
    game_current_win_prob site today mp home away d =
      .ok [(home, p), (away, 1 - p)] mp' ∧
    ([(home, p), (away, 1 - p)].map Prod.fst = [home, away]) ∧
    p + (1 - p) = 1 := by
  refine ⟨?_, by simp, by ring⟩
  simp only [game_current_win_prob, hev, hlast, hp, mkDict_pair, if_neg hne]

/-- C5, instantiated: the concrete MTL/VAN run returns
`{mtl: 0.75, van: 0.25}` and the values sum to 1. -/
theorem c5_witness :
    game_current_win_prob siteA "2021-01-23" mpA "mtl" "van" (some "2021-01-23") =
      .ok [("mtl", pEvA), ("van", 1 - pEvA)] mpAfterGameA ∧
    ([("mtl", pEvA), ("van", 1 - pEvA)].map Prod.fst = ["mtl", "van"]) ∧
    pEvA + (1 - pEvA) = 1 :=
  c5_current_win_prob siteA "2021-01-23" mpA "mtl" "van" (some "2021-01-23")
    (_gen_dataframe eventsReqA.body) mpAfterGameA currRowA pEvA
    (by decide) rfl rfl rfl

/-! ## C6: per-day win probabilities -/

/-- A `getD`-style restatement of a successful `get?`. -/
theorem get?_eq_getD {α : Type} [Inhabited α] (l : List α) (i : Nat)
    (h : i < l.length) : l.get? i = some (l.getD i default) := by
  cases hg : l.get? i with
  | none => exact absurd (List.get?_eq_none.mp hg) (by omega)
  | some a =>
    have hg' : l[i]? = some a := by rw [← List.get?_eq_getElem?]; exact hg
    simp [List.getD, hg']

/-- A row the `win_probs` loop processes without an exception: five cells, the
percent cells parse, the logo cells resolve in the inverse directory. -/
def goodRow (ti : List (String × String)) (r : Row) : Bool :=
  decide (5 ≤ r.cells.length) &&
  (_process_percent (r.cells.getD 0 default)).isSome &&
  (_process_logo ti (r.cells.getD 1 default)).isSome &&
  (_process_percent (r.cells.getD 4 default)).isSome &&
  (_process_logo ti (r.cells.getD 3 default)).isSome

/-- The entry the `win_probs` loop produces for a row: the away pair from
cells 0 (percent) and 1 (logo), the home pair from cells 4 (percent) and
3 (logo), assembled as a dict. -/
def rowEntry (ti : List (String × String)) (r : Row) : List (String × ℚ) :=
  mkDict
    [((_process_logo ti (r.cells.getD 1 default)).getD "",
      (_process_percent (r.cells.getD 0 default)).getD 0),
     ((_process_logo ti (r.cells.getD 3 default)).getD "",
      (_process_percent (r.cells.getD 4 default)).getD 0)]

/-- On a good row the loop body returns exactly `rowEntry`. -/
theorem processRow_ok_of_good (ti : List (String × String)) (r : Row)
    (hg : goodRow ti r = true) : processRow ti r = .ok (rowEntry ti r) := by
  unfold goodRow at hg
  simp only [Bool.and_eq_true, decide_eq_true_eq] at hg
  obtain ⟨⟨⟨⟨hlen, hp0⟩, hl1⟩, hp4⟩, hl3⟩ := hg
  obtain ⟨ap, hap⟩ := Option.isSome_iff_exists.mp hp0
  obtain ⟨an, han⟩ := Option.isSome_iff_exists.mp hl1
  obtain ⟨hp, hhp⟩ := Option.isSome_iff_exists.mp hp4
  obtain ⟨hn, hhn⟩ := Option.isSome_iff_exists.mp hl3
  have e0 := get?_eq_getD r.cells 0 (by omega)
  have e1 := get?_eq_getD r.cells 1 (by omega)
  have e3 := get?_eq_getD r.cells 3 (by omega)
  have e4 := get?_eq_getD r.cells 4 (by omega)
  simp only [processRow, rowEntry, e0, e1, e3, e4, hap, han, hhp, hhn,
    Option.getD_some]

/-- On all-good rows the loop returns one entry per row, in order. -/
theorem processRows_map (ti : List (String × String)) (rows : List Row)
    (h : ∀ r ∈ rows, goodRow ti r = true) :
    processRows ti rows = .ok (rows.map (rowEntry ti)) := by
  induction rows with
  | nil => rfl
  | cons r t ih =>
    simp only [processRows, processRow_ok_of_good ti r (h r (by simp)),
      ih (fun x hx => h x (by simp [hx])), List.map]

/-- C6 counterexample page: one game row whose two percent cells both read
`30.0%` — perfectly well-formed for the scraper, but not summing to 100%. -/
def row6 : Row :=
  { cells := [⟨"30.0%", ""⟩, ⟨"", "VANCOUVER CANUCKS"⟩, ⟨"", ""⟩,
              ⟨"", "MONTREAL CANADIENS"⟩, ⟨"30.0%", ""⟩]
    href := "http://moneypuck.com/g.htm?id=777"
    clickable := true }

/-- The C6 site serving that page for the date. -/
def site6 : Site :=
  { pageOf := fun u => if u = dateUrlA then ⟨[row6]⟩ else ⟨[]⟩
    requestsOf := fun _ => [] }

/-- The parsed probability `30.0% / 100`. -/
def q30 : ℚ := (((30 : ℕ) : ℚ) + ((0 : ℕ) : ℚ) / 10 ^ 1) / 100

/-- C6 is wrong that each entry's two values sum to 1: the code copies the two
page percentages without enforcing any relation between them, so a page whose
cells read `30.0%` and `30.0%` yields an entry summing to `0.6`. -/
theorem c6_counterexample :
    resultValue (win_probs site6 "2021-01-23" mpA none) =
      some [[("VAN", q30), ("MTL", q30)]] ∧
    q30 + q30 ≠ 1 := by
  refine ⟨rfl, by norm_num [q30]⟩

/-- C6 amended: on a date page all of whose rows are well-formed, `win_probs`
returns exactly one entry per table row, in page order, each entry built by
`rowEntry` — keys the uppercased inverse-directory lookups of the logo alts,
values the percent texts stripped of `%`, `float`-parsed and divided by 100.
The two values of an entry sum to 1 only when the page's two percentages
themselves sum to 100%; the code does not enforce that. -/
theorem c6_amended (site : Site) (today : String) (mp : MoneyPuck)
    (d : Option String)
    (hrows : (_go_to_date site today mp d).driver.page.rows ≠ [])
    (hgood : ∀ r ∈ (_go_to_date site today mp d).driver.page.rows,
      goodRow (_go_to_date site today mp d).teamsInv r = true) :
    win_probs site today mp d =
      .ok ((_go_to_date site today mp d).driver.page.rows.map
            (rowEntry (_go_to_date site today mp d).teamsInv))
        (_go_to_date site today mp d) := by
  have hpr := processRows_map _ _ hgood
  cases hr : (_go_to_date site today mp d).driver.page.rows with
  | nil => exact absurd hr hrows
  | cons r t =>
    rw [hr] at hpr
    simp only [win_probs, hr, hpr]

/-- C6 amended, instantiated on the concrete page with one well-formed row. -/
theorem c6_amended_witness :
    win_probs site6 "2021-01-23" mpA none =
      .ok ((_go_to_date site6 "2021-01-23" mpA none).driver.page.rows.map
            (rowEntry (_go_to_date site6 "2021-01-23" mpA none).teamsInv))
        (_go_to_date site6 "2021-01-23" mpA none) :=
  c6_amended site6 "2021-01-23" mpA none (by decide) (by decide)

/-! ## C10: fixed cell indices and key shape in `win_probs` -/

/-- C10 counterexample row: a single cell whose text does not parse. -/
def row10 : Row := { cells := [⟨"x", ""⟩], href := "h", clickable := true }

/-- The C10 site serving a date page with that one row. -/
def site10 : Site :=
  { pageOf := fun u => if u = dateUrlA then ⟨[row10]⟩ else ⟨[]⟩
    requestsOf := fun _ => [] }

/-- C10 is wrong that every row with fewer than five cells fails with an
out-of-range indexing error: a one-cell row whose percent text does not parse
fails at the `float` call first, so `win_probs` raises `ValueError`, not the
claimed `IndexError`. -/
theorem c10_counterexample :
    row10.cells.length < 5 ∧
    resultErr (win_probs site10 "2021-01-23" mpA none) = some .valueError ∧
    (PyErr.valueError ≠ PyErr.indexError) := by
  refine ⟨by decide, by decide, by decide⟩

/-- Success-shape of the loop body: it read the logo cells at indices 1 and 3,
resolved both alts in the inverse directory, and the entry is the dict of the
two uppercased lookups. -/
theorem processRow_ok_elim (ti : List (String × String)) (r : Row)
    (e : List (String × ℚ)) (h : processRow ti r = .ok e) :
    ∃ c1 c3 n1 n3 ap hp,
      r.cells.get? 1 = some c1 ∧ r.cells.get? 3 = some c3 ∧
      pyLookup ti (pyLower c1.imgAlt) = some n1 ∧
      pyLookup ti (pyLower c3.imgAlt) = some n3 ∧
      e = mkDict [(pyUpper n1, ap), (pyUpper n3, hp)] := by
  cases h0 : r.cells.get? 0 with
  | none => simp [processRow, ← List.get?_eq_getElem?, h0] at h
  | some c0 =>
  cases hp0 : _process_percent c0 with
  | none => simp [processRow, ← List.get?_eq_getElem?, h0, hp0] at h
  | some ap =>
  cases h1 : r.cells.get? 1 with
  | none => simp [processRow, ← List.get?_eq_getElem?, h0, hp0, h1] at h
  | some c1 =>
  cases hl1 : _process_logo ti c1 with
  | none => simp [processRow, ← List.get?_eq_getElem?, h0, hp0, h1, hl1] at h
  | some an =>
  cases h4 : r.cells.get? 4 with
  | none => simp [processRow, ← List.get?_eq_getElem?, h0, hp0, h1, hl1, h4] at h
  | some c4 =>
  cases hp4 : _process_percent c4 with
  | none => simp [processRow, ← List.get?_eq_getElem?, h0, hp0, h1, hl1, h4, hp4] at h
  | some hp =>
  cases h3 : r.cells.get? 3 with
  | none => simp [processRow, ← List.get?_eq_getElem?, h0, hp0, h1, hl1, h4, hp4, h3] at h
  | some c3 =>
  cases hl3 : _process_logo ti c3 with
  | none => simp [processRow, ← List.get?_eq_getElem?, h0, hp0, h1, hl1, h4, hp4, h3, hl3] at h
  | some hn =>
  simp only [processRow, ← List.get?_eq_getElem?, h0, hp0, h1, hl1, h4, hp4, h3, hl3] at h
  obtain ⟨n1, hn1, han⟩ := Option.map_eq_some'.mp hl1
  obtain ⟨n3, hn3, hhn⟩ := Option.map_eq_some'.mp hl3
  injection h with he
  exact ⟨c1, c3, n1, n3, ap, hp, rfl, rfl, hn1, hn3,
    by rw [← he, han, hhn]⟩

/-- C10 amended: the loop reads the fixed indices 0, 1, 3, 4; every row with
fewer than five cells makes it fail — with the out-of-range `IndexError`
whenever the cells before the missing index process cleanly, and with that
earlier cell's own error otherwise; every key of every returned entry is the
uppercased inverse-directory lookup of a lowercased logo alt, whereas
`game_current_win_prob` returns the caller's strings as keys verbatim. -/
theorem c10_amended :
    (∀ (ti : List (String × String)) (r : Row), r.cells.length < 5 →
      ∃ e, processRow ti r = .error e) ∧
    (∀ (ti : List (String × String)) (r : Row), r.cells.length < 5 →
      (r.cells.get? 0).all (fun c => (_process_percent c).isSome) = true →
      (r.cells.get? 1).all (fun c => (_process_logo ti c).isSome) = true →
      processRow ti r = .error .indexError) ∧
    (∀ (ti : List (String × String)) (r : Row) (e : List (String × ℚ)),
      processRow ti r = .ok e →
      ∀ k ∈ e.map Prod.fst, ∃ s n, pyLookup ti s = some n ∧ k = pyUpper n) ∧
    (∀ (site : Site) (today : String) (mp : MoneyPuck) (home away : String)
      (d : Option String) (l : List (String × ℚ)) (mp' : MoneyPuck),
      game_current_win_prob site today mp home away d = .ok l mp' →
      ∃ p, l = mkDict [(home, p), (away, 1 - p)]) := by
  refine ⟨?_, ?_, ?_, ?_⟩
  · intro ti r h
    have h4 : r.cells.get? 4 = none := List.get?_eq_none.mpr (by omega)
    simp only [processRow, h4]
    repeat' split
    all_goals exact ⟨_, rfl⟩
  · intro ti r h hc0 hc1
    have h4 : r.cells.get? 4 = none := List.get?_eq_none.mpr (by omega)
    cases h0 : r.cells.get? 0 with
    | none => simp only [processRow, h0]
    | some c0 =>
      rw [h0] at hc0
      obtain ⟨ap, hap⟩ := Option.isSome_iff_exists.mp (by simpa using hc0)
      cases h1 : r.cells.get? 1 with
      | none => simp only [processRow, h0, hap, h1]
      | some c1 =>
        rw [h1] at hc1
        obtain ⟨an, han⟩ := Option.isSome_iff_exists.mp (by simpa using hc1)
        simp only [processRow, h0, hap, h1, han, h4]
  · intro ti r e h k hk
    obtain ⟨c1, c3, n1, n3, ap, hp, _, _, hn1, hn3, he⟩ := processRow_ok_elim ti r e h
    subst he
    rw [mkDict_pair] at hk
    by_cases hkk : pyUpper n1 = pyUpper n3
    · rw [if_pos hkk] at hk
      simp only [List.map, List.mem_singleton] at hk
      exact ⟨pyLower c1.imgAlt, n1, hn1, hk⟩
    · rw [if_neg hkk] at hk
      simp only [List.map, List.mem_cons, List.mem_singleton, List.not_mem_nil,
        or_false] at hk
      cases hk with
      | inl h1 => exact ⟨pyLower c1.imgAlt, n1, hn1, h1⟩
      | inr h3 => exact ⟨pyLower c3.imgAlt, n3, hn3, h3⟩
  · intro site today mp home away d l mp' h
    cases hge : game_events site today mp home away d with
    | exn e mp2 => simp [game_current_win_prob, hge] at h
    | ok df mp2 =>
      cases hlast : df.getLast? with
      | none => simp [game_current_win_prob, hge, hlast] at h
      | some curr =>
        cases hlk : pyLookup curr "homeWinProbability" with
        | none => simp [game_current_win_prob, hge, hlast, hlk] at h
        | some o =>
          cases o with
          | none => simp [game_current_win_prob, hge, hlast, hlk] at h
          | some p =>
            simp only [game_current_win_prob, hge, hlast, hlk] at h
            injection h with h1 h2
            exact ⟨p, h1.symm⟩

/-- C10 amended, instantiated: a short row always fails; a clean 3-cell row
fails precisely with the indexing error; the concrete successful entry's keys
are uppercased inverse lookups; the concrete `game_current_win_prob` result is
the verbatim-keyed dict. -/
theorem c10_amended_witness :
    (∃ e, processRow [] row10 = .error e) ∧
    processRow (pyDictInv nhlTeams)
      { cells := [⟨"50.0%", ""⟩, ⟨"", "VANCOUVER CANUCKS"⟩, ⟨"", ""⟩]
        href := "h", clickable := true } = .error .indexError ∧
    (∀ k ∈ (rowEntry (pyDictInv nhlTeams) row6).map Prod.fst,
      ∃ s n, pyLookup (pyDictInv nhlTeams) s = some n ∧ k = pyUpper n) ∧
    (∃ p, [("mtl", pEvA), ("van", 1 - pEvA)] = mkDict [("mtl", p), ("van", 1 - p)]) := by
  refine ⟨c10_amended.1 [] row10 (by decide), ?_, ?_, ?_⟩
  · exact c10_amended.2.1 (pyDictInv nhlTeams) _ (by decide) (by decide) (by decide)
  · intro k hk
    refine c10_amended.2.2.1 (pyDictInv nhlTeams) row6 (rowEntry (pyDictInv nhlTeams) row6)
      (processRow_ok_of_good _ _ (by decide)) k hk
  · exact c10_amended.2.2.2 siteA "2021-01-23" mpA "mtl" "van" (some "2021-01-23")
      [("mtl", pEvA), ("van", 1 - pEvA)] mpAfterGameA (by rfl)
